import Mathlib

/-!
Shallow embedding of `src/Cookbook/models.py` (GangFans/GangFansCooking-Backend).

The repository is a Django model layer.  We embed the persisted state as an
in-memory database value (`DB`): one list of records per table, join tables
included, and each ORM operation as a pure function over `DB`.  ORM query
semantics are embedded faithfully:

* a reverse many-to-many access such as `tag.cookbook_set` is an SQL inner
  join over the through table with NO `DISTINCT`, so each join row yields one
  result row;
* `Material.objects.filter(step__cookbook=self)` spans the many-to-many
  relation, again without `DISTINCT`, so a material appears once per matching
  `MaterialStepRelationship` row;
* `on_delete=CASCADE` foreign keys delete dependent rows when the referenced
  row is deleted;
* `order_by("materialsteprelationship__priority", "id")` sorts by the join
  row's `priority`, then the material primary key, both ascending.

Records carry the fields the claims talk about; presentation-only fields
(admin links, image URLs, verbose names) and the implicit auto primary key of
the two join tables are not modelled because no claim mentions them.
-/

/-- Modelled from the spec: the `MaterialType` enumeration lives in
`Cookbook/defines.py`, which is not part of the provided sources.  The spec
describes it as "three tagged variants — FOOD, CONDIMENT, TOOL"; the concrete
numeric values are not given, so we fix three distinct values. -/
inductive MaterialType where
  | FOOD
  | CONDIMENT
  | TOOL
deriving DecidableEq

/-- Modelled from the spec: the numeric `.value` of each variant (the source
stores it in the `Material.type` column); any three distinct values work. -/
def MaterialType.value : MaterialType → Int
  | .FOOD => 1
  | .CONDIMENT => 2
  | .TOOL => 3

/-- `class CookbookTag(TimeStampedModel)`: `name`, `priority`,
and the cached `cookbook_sum` count. -/
structure CookbookTag where
  id : Nat
  name : String
  priority : Int
  cookbook_sum : Int
deriving DecidableEq

/-- `class Material(TimeStampedModel)`: `name`, `detail`, `type`
(a `MaterialType` value), `img_url` omitted (presentation only). -/
structure Material where
  id : Nat
  name : String
  detail : String
  type : Int
deriving DecidableEq

/-- `class Step(TimeStampedModel)`: `name`, `detail`, `priority`, and the
`cookbook` foreign key (`on_delete=CASCADE`). `img_url` / `duration` omitted
(no claim mentions them). -/
structure Step where
  id : Nat
  name : String
  detail : String
  priority : Int
  cookbook_id : Nat
deriving DecidableEq

/-- `class Cookbook(TimeStampedModel)`: `name`, `description`, and the
`checked` visibility flag; URL fields omitted (presentation only). -/
structure Cookbook where
  id : Nat
  name : String
  description : String
  checked : Bool
deriving DecidableEq

/-- `class TagCookbookRelationship(models.Model)`: join row between
`Cookbook` and `CookbookTag` with `like` / `unlike` counters. -/
structure TagCookbookRelationship where
  cookbook_id : Nat
  tag_id : Nat
  like : Int
  unlike : Int
deriving DecidableEq

/-- `class MaterialStepRelationship(models.Model)`: join row between `Step`
and `Material` with `amount` and `priority`. -/
structure MaterialStepRelationship where
  step_id : Nat
  material_id : Nat
  amount : String
  priority : Int
deriving DecidableEq

/-- The persisted store: one table per model class. -/
structure DB where
  cookbooks : List Cookbook
  tags : List CookbookTag
  steps : List Step
  materials : List Material
  tagCookbookRels : List TagCookbookRelationship
  materialStepRels : List MaterialStepRelationship
deriving DecidableEq

namespace DB

/-- `tag.cookbook_set.count()`: SQL
`SELECT COUNT(*) FROM cookbook INNER JOIN tagcookbookrelationship r
 ON cookbook.id = r.cookbook_id WHERE r.tag_id = tagId`.
One counted row per join row whose referenced cookbook exists (inner join);
no `DISTINCT` is applied by the ORM. -/
def cookbook_set_count (db : DB) (tagId : Nat) : Nat :=
  (db.tagCookbookRels.filter
    (fun r => r.tag_id == tagId && db.cookbooks.any (fun c => c.id == r.cookbook_id))).length

/-- `CookbookTag.update_cookbook_sum`:
`self.cookbook_sum = self.cookbook_set.count(); self.save()` —
overwrite the tag row's cached count and persist it. -/
def update_cookbook_sum (db : DB) (tagId : Nat) : DB :=
  { db with tags := db.tags.map (fun t =>
      if t.id == tagId then { t with cookbook_sum := (db.cookbook_set_count tagId : Int) } else t) }

/-- `Cookbook.add_tag`:
`if TagCookbookRelationship.objects.filter(cookbook=self, tag=tag).exists(): return`
`TagCookbookRelationship.objects.create(tag=tag, cookbook=self)` —
the created row takes the field defaults `like = 0`, `unlike = 0`. -/
def add_tag (db : DB) (cookbookId tagId : Nat) : DB :=
  if db.tagCookbookRels.any (fun r => r.cookbook_id == cookbookId && r.tag_id == tagId) then
    db
  else
    { db with tagCookbookRels := db.tagCookbookRels ++
        [{ cookbook_id := cookbookId, tag_id := tagId, like := 0, unlike := 0 }] }

/-- The rows feeding `step.material_set`: one `(join priority, material)` pair
per `MaterialStepRelationship` row of this step whose material exists
(inner join through the through table). -/
def step_material_rows (db : DB) (stepId : Nat) : List (Int × Material) :=
  (db.materialStepRels.filter (fun r => r.step_id == stepId)).filterMap
    (fun r => (db.materials.find? (fun m => m.id == r.material_id)).map
      (fun m => (r.priority, m)))

/-- The ORDER BY relation of `get_material_set`:
`("materialsteprelationship__priority", "id")`, both ascending. -/
def matRowLe (a b : Int × Material) : Prop :=
  a.1 < b.1 ∨ (a.1 = b.1 ∧ a.2.id ≤ b.2.id)

instance (a b : Int × Material) : Decidable (matRowLe a b) :=
  inferInstanceAs (Decidable (a.1 < b.1 ∨ (a.1 = b.1 ∧ a.2.id ≤ b.2.id)))

instance : IsTotal (Int × Material) matRowLe :=
  ⟨by intro a b; unfold matRowLe; omega⟩

instance : IsTrans (Int × Material) matRowLe :=
  ⟨by intro a b c; unfold matRowLe; omega⟩

/-- `step.material_set.order_by("materialsteprelationship__priority", "id")`
as the sorted list of `(join priority, material)` rows. -/
def get_material_set_rows (db : DB) (stepId : Nat) : List (Int × Material) :=
  (db.step_material_rows stepId).insertionSort matRowLe

/-- `Step.get_material_set`: all materials linked to this step, ordered by the
join row's `priority` ascending, then by material id ascending. -/
def get_material_set (db : DB) (stepId : Nat) : List Material :=
  (db.get_material_set_rows stepId).map Prod.snd

/-- `Step.get_material_set_by_type`:
`list(filter(lambda material: material.type == material_type_value, self.get_material_set()))`. -/
def get_material_set_by_type (db : DB) (stepId : Nat) (material_type_value : Int) : List Material :=
  (db.get_material_set stepId).filter (fun m => m.type == material_type_value)

/-- `Step.materials_food` property:
`self.get_material_set_by_type(MaterialType.FOOD.value)`. -/
def materials_food (db : DB) (stepId : Nat) : List Material :=
  db.get_material_set_by_type stepId MaterialType.FOOD.value

/-- `Step.materials_tool` property:
`self.get_material_set_by_type(MaterialType.TOOL.value)`. -/
def materials_tool (db : DB) (stepId : Nat) : List Material :=
  db.get_material_set_by_type stepId MaterialType.TOOL.value

/-- `Step.materials_condiment` property:
`self.get_material_set_by_type(MaterialType.CONDIMENT.value)`. -/
def materials_condiment (db : DB) (stepId : Nat) : List Material :=
  db.get_material_set_by_type stepId MaterialType.CONDIMENT.value

/-- `Cookbook.materials` property:
`Material.objects.filter(step__cookbook=self).all()` — an inner join of
`material ⋈ materialsteprelationship ⋈ step` restricted to
`step.cookbook_id = cookbookId`, with NO `DISTINCT`: a material occurs once
per matching join row. -/
def cookbook_materials (db : DB) (cookbookId : Nat) : List Material :=
  db.materialStepRels.filterMap (fun r =>
    (db.steps.find? (fun s => s.id == r.step_id)).bind (fun s =>
      if s.cookbook_id == cookbookId then
        db.materials.find? (fun m => m.id == r.material_id)
      else none))

/-- `Cookbook.objects` (`models.Manager()`): the unfiltered scope. -/
def objects_cookbooks (db : DB) : List Cookbook :=
  db.cookbooks

/-- `Cookbook.public` (`CookbookPublicManager`):
`super().get_queryset().filter(checked=True)`. -/
def public_cookbooks (db : DB) : List Cookbook :=
  db.cookbooks.filter (fun c => c.checked)

/-- Updating a cookbook's `checked` flag and saving it
(`c.checked = b; c.save()`). -/
def set_checked (db : DB) (cookbookId : Nat) (b : Bool) : DB :=
  { db with cookbooks := db.cookbooks.map (fun c =>
      if c.id == cookbookId then { c with checked := b } else c) }

/-- Deleting a cookbook.  Django cascade semantics:
the cookbook row goes; every `Step` with `cookbook_id = cookbookId` goes
(`Step.cookbook` is `on_delete=CASCADE`); every `MaterialStepRelationship`
row whose step was deleted goes (`MaterialStepRelationship.step` is CASCADE);
every `TagCookbookRelationship` row of the cookbook goes
(`TagCookbookRelationship.cookbook` is CASCADE).  `Material` and
`CookbookTag` rows are untouched. -/
def delete_cookbook (db : DB) (cookbookId : Nat) : DB :=
  { db with
    cookbooks := db.cookbooks.filter (fun c => ¬ c.id == cookbookId),
    steps := db.steps.filter (fun s => ¬ s.cookbook_id == cookbookId),
    materialStepRels := db.materialStepRels.filter (fun r =>
      ¬ db.steps.any (fun s => s.id == r.step_id && s.cookbook_id == cookbookId)),
    tagCookbookRels := db.tagCookbookRels.filter (fun r => ¬ r.cookbook_id == cookbookId) }

/-- The number of distinct cookbooks associated with a tag through the join
table (what the spec says `update_cookbook_sum` computes). -/
def distinct_cookbook_count (db : DB) (tagId : Nat) : Nat :=
  (((db.tagCookbookRels.filter (fun r => r.tag_id == tagId)).map
      (fun r => r.cookbook_id)).dedup).length

end DB

/-! ## Claims -/

/-- C4: for every step, `get_material_set` is sorted by the join row's
`priority` ascending, with the material id as ascending tie-break (so the
order is a deterministic function of the stored data: distinct result
entries never share both keys), and the returned materials are exactly the
second components of those sorted `(join priority, material)` rows. -/
theorem get_material_set_sorted (db : DB) (stepId : Nat) :
    (db.get_material_set_rows stepId).Pairwise
      (fun a b => a.1 < b.1 ∨ (a.1 = b.1 ∧ a.2.id ≤ b.2.id))
    ∧ db.get_material_set stepId = (db.get_material_set_rows stepId).map Prod.snd := by
  refine ⟨?_, rfl⟩
  exact List.sorted_insertionSort DB.matRowLe (db.step_material_rows stepId)

/-- C5: every material returned by the typed filter has the requested type,
and the filtered list is a sublist (order-preserving subsequence) of
`get_material_set`. -/
theorem get_material_set_by_type_spec (db : DB) (stepId : Nat) (v : Int) :
    (∀ m ∈ db.get_material_set_by_type stepId v, m.type = v)
    ∧ (db.get_material_set_by_type stepId v).Sublist (db.get_material_set stepId) := by
  constructor
  · intro m hm
    have := (List.mem_filter.mp hm).2
    simpa only [beq_iff_eq] using this
  · exact List.filter_sublist _

/-- C5 witness: on a concrete database, the typed filter's output has the
requested type and is a sublist of the full ordered list. -/
theorem get_material_set_by_type_spec_witness :
    ({ id := 100, name := "beef", detail := "", type := 1 } : Material).type = 1
    ∧ ((DB.mk [⟨1, "c", "", true⟩] [] [⟨10, "s", "", 0, 1⟩]
          [⟨100, "beef", "", 1⟩, ⟨101, "wok", "", 3⟩]
          [] [⟨10, 100, "200g", 0⟩, ⟨10, 101, "", 1⟩]).get_material_set_by_type 10 1).Sublist
        ((DB.mk [⟨1, "c", "", true⟩] [] [⟨10, "s", "", 0, 1⟩]
          [⟨100, "beef", "", 1⟩, ⟨101, "wok", "", 3⟩]
          [] [⟨10, 100, "200g", 0⟩, ⟨10, 101, "", 1⟩]).get_material_set 10) := by
  constructor
  · exact (get_material_set_by_type_spec
      (DB.mk [⟨1, "c", "", true⟩] [] [⟨10, "s", "", 0, 1⟩]
        [⟨100, "beef", "", 1⟩, ⟨101, "wok", "", 3⟩]
        [] [⟨10, 100, "200g", 0⟩, ⟨10, 101, "", 1⟩]) 10 1).1
      { id := 100, name := "beef", detail := "", type := 1 } (by decide)
  · exact (get_material_set_by_type_spec
      (DB.mk [⟨1, "c", "", true⟩] [] [⟨10, "s", "", 0, 1⟩]
        [⟨100, "beef", "", 1⟩, ⟨101, "wok", "", 3⟩]
        [] [⟨10, 100, "200g", 0⟩, ⟨10, 101, "", 1⟩]) 10 1).2

/-- C8: `add_tag` never touches the `CookbookTag` table: every tag row,
its cached `cookbook_sum` included, is exactly as before the call. -/
theorem add_tag_preserves_tags (db : DB) (cookbookId tagId : Nat) :
    (db.add_tag cookbookId tagId).tags = db.tags := by
  unfold DB.add_tag
  split <;> rfl

/-- C9: the three convenience views are definitionally the typed filter at
the FOOD, CONDIMENT and TOOL variant values respectively. -/
theorem material_variant_views (db : DB) (stepId : Nat) :
    db.materials_food stepId = db.get_material_set_by_type stepId MaterialType.FOOD.value
    ∧ db.materials_condiment stepId
        = db.get_material_set_by_type stepId MaterialType.CONDIMENT.value
    ∧ db.materials_tool stepId = db.get_material_set_by_type stepId MaterialType.TOOL.value :=
  ⟨rfl, rfl, rfl⟩

/-- C10: when no material of the step has type `v`, the typed filter
returns the empty list (it does not fail). -/
theorem get_material_set_by_type_empty (db : DB) (stepId : Nat) (v : Int)
    (h : ∀ m ∈ db.get_material_set stepId, m.type ≠ v) :
    db.get_material_set_by_type stepId v = [] := by
  unfold DB.get_material_set_by_type
  refine List.filter_eq_nil_iff.mpr ?_
  intro m hm
  simpa only [beq_iff_eq] using h m hm

/-- C10 witness: on a concrete database whose materials have types 1 and 3,
the typed filter at the unused value 99 returns the empty list. -/
theorem get_material_set_by_type_empty_witness :
    (DB.mk [⟨1, "c", "", true⟩] [] [⟨10, "s", "", 0, 1⟩]
        [⟨100, "beef", "", 1⟩, ⟨101, "wok", "", 3⟩]
        [] [⟨10, 100, "200g", 0⟩, ⟨10, 101, "", 1⟩]).get_material_set_by_type 10 99 = [] :=
  get_material_set_by_type_empty
    (DB.mk [⟨1, "c", "", true⟩] [] [⟨10, "s", "", 0, 1⟩]
      [⟨100, "beef", "", 1⟩, ⟨101, "wok", "", 3⟩]
      [] [⟨10, 100, "200g", 0⟩, ⟨10, 101, "", 1⟩]) 10 99 (by decide)

/-- C3: `add_tag` is a no-op when a join row for the pair already exists;
otherwise it creates exactly one row with `like = 0` and `unlike = 0`; hence
from a state with no row for the pair, calling it twice leaves exactly one
association row between the cookbook and the tag. -/
theorem add_tag_idempotent (db : DB) (c t : Nat) :
    ((∃ r ∈ db.tagCookbookRels, r.cookbook_id = c ∧ r.tag_id = t) → db.add_tag c t = db)
    ∧ (db.tagCookbookRels.countP (fun r => r.cookbook_id == c && r.tag_id == t) = 0 →
        ((db.add_tag c t).tagCookbookRels.countP
            (fun r => r.cookbook_id == c && r.tag_id == t) = 1
         ∧ ((db.add_tag c t).add_tag c t).tagCookbookRels.countP
            (fun r => r.cookbook_id == c && r.tag_id == t) = 1
         ∧ ∀ r ∈ (db.add_tag c t).tagCookbookRels,
             r.cookbook_id = c → r.tag_id = t → r.like = 0 ∧ r.unlike = 0)) := by
  have hnoop : ∀ d : DB,
      d.tagCookbookRels.any (fun r => r.cookbook_id == c && r.tag_id == t) = true →
      d.add_tag c t = d := by
    intro d hd
    unfold DB.add_tag
    simp [hd]
  constructor
  · rintro ⟨r, hr, h1, h2⟩
    refine hnoop db ?_
    simp only [List.any_eq_true, Bool.and_eq_true, beq_iff_eq]
    exact ⟨r, hr, h1, h2⟩
  · intro h0
    have hnone : ∀ r ∈ db.tagCookbookRels, ¬ (r.cookbook_id == c && r.tag_id == t) = true :=
      List.countP_eq_zero.mp h0
    have hany : db.tagCookbookRels.any (fun r => r.cookbook_id == c && r.tag_id == t) = false := by
      rw [← Bool.not_eq_true, List.any_eq_true]
      rintro ⟨r, hr, hp⟩
      exact hnone r hr hp
    have hfirst : db.add_tag c t =
        { db with tagCookbookRels := db.tagCookbookRels ++
            [{ cookbook_id := c, tag_id := t, like := 0, unlike := 0 }] } := by
      unfold DB.add_tag
      simp [hany]
    have hcount1 : (db.add_tag c t).tagCookbookRels.countP
        (fun r => r.cookbook_id == c && r.tag_id == t) = 1 := by
      rw [hfirst]
      simp [List.countP_append, h0, List.countP_cons]
    refine ⟨hcount1, ?_, ?_⟩
    · have hany2 : (db.add_tag c t).tagCookbookRels.any
          (fun r => r.cookbook_id == c && r.tag_id == t) = true := by
        simp only [List.any_eq_true]
        have : 0 < (db.add_tag c t).tagCookbookRels.countP
            (fun r => r.cookbook_id == c && r.tag_id == t) := by omega
        exact List.countP_pos_iff.mp this
      rw [hnoop _ hany2]
      exact hcount1
    · intro r hr h1 h2
      rw [hfirst] at hr
      rcases List.mem_append.mp hr with hmem | hmem
      · exact absurd (by simp [h1, h2]) (hnone r hmem)
      · simp only [List.mem_singleton] at hmem
        subst hmem
        exact ⟨rfl, rfl⟩

/-- C3 witness: in a concrete database with no association row between
cookbook 1 and tag 2, two `add_tag` calls leave exactly one row for the pair,
and that row carries `like = 0`, `unlike = 0`. -/
theorem add_tag_idempotent_witness :
    (((DB.mk [⟨1, "c", "", false⟩] [⟨2, "tag", 0, 0⟩] [] [] [] []).add_tag 1 2).add_tag
        1 2).tagCookbookRels.countP (fun r => r.cookbook_id == 1 && r.tag_id == 2) = 1 :=
  ((add_tag_idempotent (DB.mk [⟨1, "c", "", false⟩] [⟨2, "tag", 0, 0⟩] [] [] [] [])
    1 2).2 (by decide)).2.1

/-- C6: the public scope holds exactly the cookbooks with `checked = true`,
the unfiltered scope holds every cookbook record; a cookbook with
`checked = false` is excluded from the public scope, and after setting its
`checked` flag to true it is included. -/
theorem cookbook_public_scope_spec (db : DB) (c : Cookbook) (cid : Nat) :
    (c ∈ db.public_cookbooks ↔ c ∈ db.cookbooks ∧ c.checked = true)
    ∧ (c ∈ db.objects_cookbooks ↔ c ∈ db.cookbooks)
    ∧ (c ∈ db.cookbooks → c.checked = false → c ∉ db.public_cookbooks)
    ∧ (c ∈ (db.set_checked cid true).cookbooks → c.id = cid →
        c ∈ (db.set_checked cid true).public_cookbooks) := by
  refine ⟨by simp [DB.public_cookbooks, List.mem_filter], Iff.rfl, ?_, ?_⟩
  · intro hmem hfalse hpub
    have := (List.mem_filter.mp hpub).2
    rw [hfalse] at this
    exact Bool.false_ne_true this
  · intro hmem hid
    refine List.mem_filter.mpr ⟨hmem, ?_⟩
    simp only [DB.set_checked, List.mem_map] at hmem
    obtain ⟨a, _, rfl⟩ := hmem
    by_cases h : a.id == cid
    · simp [h]
    · rw [if_neg h] at hid
      exact absurd (beq_iff_eq.mpr hid) h

/-- C6 witness: a concrete cookbook created with `checked = false` is absent
from the public scope, and after `set_checked … true` it is present. -/
theorem cookbook_public_scope_spec_witness :
    (⟨1, "c", "", false⟩ : Cookbook) ∉
      (DB.mk [⟨1, "c", "", false⟩] [] [] [] [] []).public_cookbooks
    ∧ (⟨1, "c", "", true⟩ : Cookbook) ∈
      ((DB.mk [⟨1, "c", "", false⟩] [] [] [] [] []).set_checked 1 true).public_cookbooks :=
  ⟨(cookbook_public_scope_spec (DB.mk [⟨1, "c", "", false⟩] [] [] [] [] [])
      ⟨1, "c", "", false⟩ 1).2.2.1 (by decide) rfl,
   (cookbook_public_scope_spec (DB.mk [⟨1, "c", "", false⟩] [] [] [] [] [])
      ⟨1, "c", "", true⟩ 1).2.2.2 (by decide) rfl⟩

/-- C7: deleting a cookbook removes every step it owns, every
material-step join row of those steps, and every tag-cookbook join row of
the cookbook, while the `Material` and `CookbookTag` tables are untouched
(a material linked only to a deleted step is still stored). -/
theorem delete_cookbook_cascade (db : DB) (cid : Nat) :
    (db.delete_cookbook cid).materials = db.materials
    ∧ (db.delete_cookbook cid).tags = db.tags
    ∧ (∀ s ∈ db.steps, s.cookbook_id = cid → s ∉ (db.delete_cookbook cid).steps)
    ∧ (∀ s ∈ (db.delete_cookbook cid).steps, s ∈ db.steps ∧ s.cookbook_id ≠ cid)
    ∧ (∀ r ∈ (db.delete_cookbook cid).tagCookbookRels, r.cookbook_id ≠ cid)
    ∧ (∀ r ∈ (db.delete_cookbook cid).materialStepRels,
        ∀ s ∈ db.steps, s.id = r.step_id → s.cookbook_id ≠ cid)
    ∧ (∀ c ∈ (db.delete_cookbook cid).cookbooks, c.id ≠ cid) := by
  refine ⟨rfl, rfl, ?_, ?_, ?_, ?_, ?_⟩
  · intro s _ hcid hmem
    have := (List.mem_filter.mp hmem).2
    simp only [decide_eq_true_eq, beq_iff_eq] at this
    exact this hcid
  · intro s hmem
    have h1 := (List.mem_filter.mp hmem).1
    have h2 := (List.mem_filter.mp hmem).2
    simp only [decide_eq_true_eq, beq_iff_eq] at h2
    exact ⟨h1, h2⟩
  · intro r hmem
    have := (List.mem_filter.mp hmem).2
    simp only [decide_eq_true_eq, beq_iff_eq] at this
    exact this
  · intro r hmem s hs hid hcid
    have := (List.mem_filter.mp hmem).2
    simp only [decide_eq_true_eq, List.any_eq_true, Bool.and_eq_true, beq_iff_eq] at this
    exact this ⟨s, hs, hid, hcid⟩
  · intro c hmem
    have := (List.mem_filter.mp hmem).2
    simp only [decide_eq_true_eq, beq_iff_eq] at this
    exact this

/-- C7 witness: on a concrete database, deleting cookbook 1 leaves the
material table unchanged (the material linked only to step 10 survives)
while step 10, owned by cookbook 1, is gone. -/
theorem delete_cookbook_cascade_witness :
    ((DB.mk [⟨1, "c", "", true⟩] [⟨5, "tag", 0, 0⟩] [⟨10, "s", "", 0, 1⟩]
        [⟨100, "beef", "", 1⟩] [⟨1, 5, 0, 0⟩] [⟨10, 100, "", 0⟩]).delete_cookbook 1).materials
      = (DB.mk [⟨1, "c", "", true⟩] [⟨5, "tag", 0, 0⟩] [⟨10, "s", "", 0, 1⟩]
        [⟨100, "beef", "", 1⟩] [⟨1, 5, 0, 0⟩] [⟨10, 100, "", 0⟩]).materials
    ∧ (⟨10, "s", "", 0, 1⟩ : Step) ∉
      ((DB.mk [⟨1, "c", "", true⟩] [⟨5, "tag", 0, 0⟩] [⟨10, "s", "", 0, 1⟩]
        [⟨100, "beef", "", 1⟩] [⟨1, 5, 0, 0⟩] [⟨10, 100, "", 0⟩]).delete_cookbook 1).steps :=
  ⟨(delete_cookbook_cascade (DB.mk [⟨1, "c", "", true⟩] [⟨5, "tag", 0, 0⟩]
      [⟨10, "s", "", 0, 1⟩] [⟨100, "beef", "", 1⟩] [⟨1, 5, 0, 0⟩] [⟨10, 100, "", 0⟩]) 1).1,
   (delete_cookbook_cascade (DB.mk [⟨1, "c", "", true⟩] [⟨5, "tag", 0, 0⟩]
      [⟨10, "s", "", 0, 1⟩] [⟨100, "beef", "", 1⟩] [⟨1, 5, 0, 0⟩] [⟨10, 100, "", 0⟩]) 1).2.2.1
      ⟨10, "s", "", 0, 1⟩ (by decide) rfl⟩

/-- C2 counterexample: with two duplicate join rows for the pair
(cookbook 1, tag 1), `update_cookbook_sum` stores 2 — the number of join
rows — while only one distinct cookbook is associated, so the stored value
differs from the distinct-cookbook count. -/
theorem update_cookbook_sum_counts_rows_cex :
    ((((DB.mk [⟨1, "c", "", true⟩] [⟨1, "tag", 0, 0⟩] [] []
        [⟨1, 1, 0, 0⟩, ⟨1, 1, 0, 0⟩] []).update_cookbook_sum 1).tags.find?
          (fun t => t.id == 1)).map CookbookTag.cookbook_sum = some 2)
    ∧ (DB.mk [⟨1, "c", "", true⟩] [⟨1, "tag", 0, 0⟩] [] []
        [⟨1, 1, 0, 0⟩, ⟨1, 1, 0, 0⟩] []).distinct_cookbook_count 1 = 1
    ∧ ¬ ((((DB.mk [⟨1, "c", "", true⟩] [⟨1, "tag", 0, 0⟩] [] []
        [⟨1, 1, 0, 0⟩, ⟨1, 1, 0, 0⟩] []).update_cookbook_sum 1).tags.find?
          (fun t => t.id == 1)).map CookbookTag.cookbook_sum
        = some ((DB.mk [⟨1, "c", "", true⟩] [⟨1, "tag", 0, 0⟩] [] []
            [⟨1, 1, 0, 0⟩, ⟨1, 1, 0, 0⟩] []).distinct_cookbook_count 1 : Int)) := by
  refine ⟨rfl, rfl, ?_⟩
  decide

/-- C2 (amended): `update_cookbook_sum` stores `cookbook_set.count()`, which
counts join rows; when the join rows of the tag reference pairwise distinct
cookbooks (no duplicate rows for a pair) and every join row's cookbook
exists, the persisted `cookbook_sum` equals the number of distinct cookbooks
associated with the tag at that instant. -/
theorem update_cookbook_sum_spec (db : DB) (tid : Nat)
    (hfk : ∀ r ∈ db.tagCookbookRels,
        db.cookbooks.any (fun c => c.id == r.cookbook_id) = true)
    (hnodup : ((db.tagCookbookRels.filter (fun r => r.tag_id == tid)).map
        (fun r => r.cookbook_id)).Nodup) :
    ∀ t ∈ (db.update_cookbook_sum tid).tags, t.id = tid →
      t.cookbook_sum = (db.distinct_cookbook_count tid : Int) := by
  intro t ht hid
  have hcounts : db.cookbook_set_count tid = db.distinct_cookbook_count tid := by
    unfold DB.cookbook_set_count DB.distinct_cookbook_count
    have hfilter : db.tagCookbookRels.filter
        (fun r => r.tag_id == tid && db.cookbooks.any (fun c => c.id == r.cookbook_id))
        = db.tagCookbookRels.filter (fun r => r.tag_id == tid) := by
      apply List.filter_congr
      intro r hr
      rw [hfk r hr, Bool.and_true]
    rw [hfilter, List.dedup_eq_self.mpr hnodup, List.length_map]
  simp only [DB.update_cookbook_sum, List.mem_map] at ht
  obtain ⟨t0, _, rfl⟩ := ht
  by_cases h : t0.id == tid
  · simp only [h, if_true]
    exact congrArg Int.ofNat hcounts
  · rw [if_neg h] at hid ⊢
    exact absurd (beq_iff_eq.mpr hid) h

/-- C2 witness: on a concrete database with a single join row for
(cookbook 1, tag 1), the persisted tag row after `update_cookbook_sum`
carries `cookbook_sum = 1`, the distinct-cookbook count. -/
theorem update_cookbook_sum_spec_witness :
    (⟨1, "tag", 0, 1⟩ : CookbookTag).cookbook_sum
      = ((DB.mk [⟨1, "c", "", true⟩] [⟨1, "tag", 0, 7⟩] [] []
          [⟨1, 1, 0, 0⟩] []).distinct_cookbook_count 1 : Int) :=
  update_cookbook_sum_spec
    (DB.mk [⟨1, "c", "", true⟩] [⟨1, "tag", 0, 7⟩] [] [] [⟨1, 1, 0, 0⟩] [])
    1 (by decide) (by decide) ⟨1, "tag", 0, 1⟩ (by decide) rfl

/-- C1 counterexample: cookbook 1 owns steps 10 and 11, both linked to
material 100; `Cookbook.materials` (no DISTINCT in the spanning join)
returns material 100 twice, refuting "each such M appears exactly once". -/
theorem cookbook_materials_duplicate_cex :
    ((DB.mk [⟨1, "c", "", true⟩] [] [⟨10, "s1", "", 0, 1⟩, ⟨11, "s2", "", 0, 1⟩]
        [⟨100, "beef", "", 1⟩] [] [⟨10, 100, "", 0⟩, ⟨11, 100, "", 0⟩]).cookbook_materials
        1).countP (fun m => m.id == 100) = 2
    ∧ ¬ ((DB.mk [⟨1, "c", "", true⟩] [] [⟨10, "s1", "", 0, 1⟩, ⟨11, "s2", "", 0, 1⟩]
        [⟨100, "beef", "", 1⟩] [] [⟨10, 100, "", 0⟩, ⟨11, 100, "", 0⟩]).cookbook_materials
        1).countP (fun m => m.id == 100) = 1 := by
  refine ⟨rfl, ?_⟩
  decide

/-- C1 (amended): in a store with unique material ids and unique step ids,
`Cookbook.materials` contains a material M iff M is stored and some step
owned by the cookbook links M through a `MaterialStepRelationship` row; M
appears once per such join row (so it can appear more than once, and its
multiplicity equals the number of join rows reaching it through the
cookbook's steps). -/
theorem cookbook_materials_spec (db : DB) (cid : Nat)
    (hm : (db.materials.map Material.id).Nodup)
    (hs : (db.steps.map Step.id).Nodup) :
    (∀ m : Material, m ∈ db.cookbook_materials cid ↔
       (m ∈ db.materials ∧ ∃ r ∈ db.materialStepRels, r.material_id = m.id ∧
          ∃ s ∈ db.steps, s.id = r.step_id ∧ s.cookbook_id = cid))
    ∧ (∀ m ∈ db.materials,
        (db.cookbook_materials cid).countP (fun x => x.id == m.id)
          = db.materialStepRels.countP (fun r => r.material_id == m.id &&
              db.steps.any (fun s => s.id == r.step_id && s.cookbook_id == cid))) := by
  constructor
  · intro m
    unfold DB.cookbook_materials
    rw [List.mem_filterMap]
    constructor
    · rintro ⟨r, hr, hfr⟩
      cases hfind : db.steps.find? (fun s => s.id == r.step_id) with
      | none =>
        rw [hfind, Option.none_bind] at hfr
        exact absurd hfr (by simp)
      | some s =>
        rw [hfind, Option.some_bind] at hfr
        by_cases hcb : (s.cookbook_id == cid) = true
        · rw [if_pos hcb] at hfr
          have hmmem := List.mem_of_find?_eq_some hfr
          have hmid : (m.id == r.material_id) = true := by simpa using List.find?_some hfr
          have hsmem := List.mem_of_find?_eq_some hfind
          have hsid : (s.id == r.step_id) = true := by simpa using List.find?_some hfind
          exact ⟨hmmem, r, hr, (beq_iff_eq.mp hmid).symm, s, hsmem, beq_iff_eq.mp hsid,
            beq_iff_eq.mp hcb⟩
        · rw [if_neg hcb] at hfr
          exact absurd hfr (by simp)
    · rintro ⟨hmmem, r, hr, hrm, s, hsmem, hsid, hscb⟩
      refine ⟨r, hr, ?_⟩
      cases hfind : db.steps.find? (fun s2 => s2.id == r.step_id) with
      | none =>
        rw [List.find?_eq_none] at hfind
        exact absurd (beq_iff_eq.mpr hsid) (hfind s hsmem)
      | some s2 =>
        rw [Option.some_bind]
        have hs2mem := List.mem_of_find?_eq_some hfind
        have hs2id : (s2.id == r.step_id) = true := by simpa using List.find?_some hfind
        have he : s2 = s := List.inj_on_of_nodup_map hs hs2mem hsmem
          (by rw [beq_iff_eq.mp hs2id, hsid])
        subst he
        rw [if_pos (beq_iff_eq.mpr hscb)]
        cases hfindm : db.materials.find? (fun x => x.id == r.material_id) with
        | none =>
          rw [List.find?_eq_none] at hfindm
          exact absurd (beq_iff_eq.mpr hrm.symm) (hfindm m hmmem)
        | some m2 =>
          have hm2mem := List.mem_of_find?_eq_some hfindm
          have hm2id : (m2.id == r.material_id) = true := by simpa using List.find?_some hfindm
          have : m2 = m := List.inj_on_of_nodup_map hm hm2mem hmmem
            (by rw [beq_iff_eq.mp hm2id, hrm])
          rw [this]
  · intro m hmmem
    unfold DB.cookbook_materials
    rw [List.countP_filterMap]
    apply List.countP_congr
    intro r _
    cases hfind : db.steps.find? (fun s => s.id == r.step_id) with
    | none =>
      have hnone := List.find?_eq_none.mp hfind
      have hany : db.steps.any (fun s => s.id == r.step_id && s.cookbook_id == cid) = false := by
        rw [List.any_eq_false]
        intro s hsmem hp
        rw [Bool.and_eq_true] at hp
        exact hnone s hsmem hp.1
      simp [hfind, hany]
    | some s =>
      have hsmem := List.mem_of_find?_eq_some hfind
      have hsid : (s.id == r.step_id) = true := by simpa using List.find?_some hfind
      by_cases hcb : (s.cookbook_id == cid) = true
      · have hany : db.steps.any (fun s2 => s2.id == r.step_id && s2.cookbook_id == cid)
            = true := by
          rw [List.any_eq_true]
          exact ⟨s, hsmem, by rw [Bool.and_eq_true]; exact ⟨hsid, hcb⟩⟩
        cases hfindm : db.materials.find? (fun x => x.id == r.material_id) with
        | none =>
          have hnonem := List.find?_eq_none.mp hfindm
          simp only [hfind, Option.some_bind]
          rw [if_pos hcb]
          simp only [Option.map_none', Option.getD_none, hany, Bool.and_true,
            Bool.false_eq_true, false_iff, beq_iff_eq]
          intro h
          exact hnonem m hmmem (by simp [h])
        | some m2 =>
          have hm2id : (m2.id == r.material_id) = true := by simpa using List.find?_some hfindm
          rw [beq_iff_eq] at hm2id
          simp only [hfind, Option.some_bind]
          rw [if_pos hcb]
          simp only [Option.map_some', Option.getD_some, hany, Bool.and_true, beq_iff_eq]
          omega
      · have hany : db.steps.any (fun s2 => s2.id == r.step_id && s2.cookbook_id == cid)
            = false := by
          rw [List.any_eq_false]
          intro s2 hs2 hp
          rw [Bool.and_eq_true] at hp
          have he : s2 = s := List.inj_on_of_nodup_map hs hs2 hsmem
            (by rw [beq_iff_eq.mp hp.1]; exact (beq_iff_eq.mp hsid).symm)
          rw [he] at hp
          exact hcb hp.2
        simp only [hfind, Option.some_bind]
        rw [if_neg hcb]
        simp [hany]

/-- C1 witness: on a concrete database the multiplicity equation of
`cookbook_materials_spec` holds for material 100 in cookbook 1. -/
theorem cookbook_materials_spec_witness :
    ((DB.mk [⟨1, "c", "", true⟩] [] [⟨10, "s", "", 0, 1⟩] [⟨100, "beef", "", 1⟩] []
        [⟨10, 100, "", 0⟩]).cookbook_materials 1).countP
        (fun x => x.id == (⟨100, "beef", "", 1⟩ : Material).id)
      = (DB.mk [⟨1, "c", "", true⟩] [] [⟨10, "s", "", 0, 1⟩] [⟨100, "beef", "", 1⟩] []
        [⟨10, 100, "", 0⟩]).materialStepRels.countP
        (fun r => r.material_id == (⟨100, "beef", "", 1⟩ : Material).id &&
          (DB.mk [⟨1, "c", "", true⟩] [] [⟨10, "s", "", 0, 1⟩] [⟨100, "beef", "", 1⟩] []
            [⟨10, 100, "", 0⟩]).steps.any (fun s => s.id == r.step_id && s.cookbook_id == 1)) :=
  (cookbook_materials_spec (DB.mk [⟨1, "c", "", true⟩] [] [⟨10, "s", "", 0, 1⟩]
      [⟨100, "beef", "", 1⟩] [] [⟨10, 100, "", 0⟩]) 1 (by decide) (by decide)).2
    ⟨100, "beef", "", 1⟩ (by decide)
